import Mathlib

/-!
Verification development for the resilience core of mcp-x-query:
the circuit breaker (src/lib/circuit-breaker.ts), the TTL cache
(src/lib/cache.ts), the persistent TTL cache and the query pipeline of
the Grok client (src/lib/grok-client.ts).

Time is passed explicitly (an integer millisecond clock standing for
Date.now()); thrown exceptions are modelled with Except; the mutable
fields of the TypeScript classes become explicit state records.
-/

/-! ## Circuit breaker (src/lib/circuit-breaker.ts) -/

/-- The three states of the breaker.  The source literal "open" is a Lean
keyword, so the constructor is named `opened`. -/
inductive CircuitState where
  | closed
  | opened
  | halfOpen
deriving DecidableEq, Repr

/-- The mutable fields of class CircuitBreaker together with its two
constructor parameters (defaults in the source: threshold 5, retry 30000 ms). -/
structure CircuitBreaker where
  state : CircuitState
  failureCount : Nat
  nextAttemptAt : Int
  failureThreshold : Nat
  retryTimeoutMs : Int
deriving DecidableEq, Repr

/-- A freshly constructed breaker: state "closed", failureCount 0,
nextAttemptAt 0. -/
def CircuitBreaker.new (failureThreshold : Nat) (retryTimeoutMs : Int) :
    CircuitBreaker :=
  { state := .closed, failureCount := 0, nextAttemptAt := 0,
    failureThreshold := failureThreshold, retryTimeoutMs := retryTimeoutMs }

/-- CircuitBreaker.check().  `Except.error r` models a thrown
GrokCircuitOpenError carrying retryInMs = r (the breaker itself is left
unchanged by a throw); `Except.ok` returns the possibly updated breaker. -/
def CircuitBreaker.check (cb : CircuitBreaker) (now : Int) :
    Except Int CircuitBreaker :=
  if cb.state = .closed then .ok cb
  else if cb.state = .opened then
    if now ≥ cb.nextAttemptAt then .ok { cb with state := .halfOpen }
    else .error (cb.nextAttemptAt - now)
  else .ok cb

/-- CircuitBreaker.onSuccess(): reset the counter and close the circuit,
unconditionally. -/
def CircuitBreaker.onSuccess (cb : CircuitBreaker) : CircuitBreaker :=
  { cb with failureCount := 0, state := .closed }

/-- CircuitBreaker.onFailure(): increment the counter; if half-open or the
incremented counter reaches the threshold, open the circuit, set
nextAttemptAt = now + retryTimeoutMs and reset the counter. -/
def CircuitBreaker.onFailure (cb : CircuitBreaker) (now : Int) : CircuitBreaker :=
  if cb.state = .halfOpen ∨ cb.failureCount + 1 ≥ cb.failureThreshold then
    { cb with
        state := .opened
        nextAttemptAt := now + cb.retryTimeoutMs
        failureCount := 0 }
  else
    { cb with failureCount := cb.failureCount + 1 }

/-- A sequence of onFailure() calls, one clock reading per call. -/
def CircuitBreaker.onFailureIter (cb : CircuitBreaker) : List Int → CircuitBreaker
  | [] => cb
  | t :: ts => (cb.onFailure t).onFailureIter ts

/-! ## Error taxonomy and the query pipeline (src/lib/errors.ts,
src/lib/grok-client.ts) -/

/-- Classification of an error thrown by the upstream SDK call, as tested by
instanceof in GrokClient: AuthenticationError, PermissionDeniedError,
RateLimitError, or anything else (carrying its message). -/
inductive ApiErr where
  | authentication
  | permissionDenied
  | rateLimit (retryAfterMs : Option Int)
  | otherFailure (msg : String)
deriving DecidableEq, Repr

/-- The closed error taxonomy surfaced by query(), by kind: GrokAuthError,
GrokRateLimitError, GrokCircuitOpenError (with retryInMs), and the generic
kind (a plain Error / rethrown upstream error, characterised by its
message). -/
inductive GrokError where
  | authError
  | rateLimitError (retryAfterMs : Option Int)
  | circuitOpenError (retryInMs : Int)
  | genericError (msg : String)
deriving DecidableEq, Repr

/-- GrokClient.rethrowApiError: auth/permission map to GrokAuthError,
rate limit maps to GrokRateLimitError, everything else is rethrown as-is
(the generic kind, original message preserved). -/
def rethrowApiError : ApiErr → GrokError
  | .authentication => .authError
  | .permissionDenied => .authError
  | .rateLimit r => .rateLimitError r
  | .otherFailure msg => .genericError msg

/-- The isNonTransient test in GrokClient.query's catch block. -/
def isNonTransient : ApiErr → Bool
  | .authentication => true
  | .permissionDenied => true
  | .rateLimit _ => true
  | .otherFailure _ => false

/-- Outcome of the upstream openai.responses.create call: a thrown error, or
a response whose output_text is the given string (the empty string models a
falsy output_text). -/
inductive UpstreamOutcome where
  | failure (err : ApiErr)
  | success (outputText : String)
deriving DecidableEq, Repr

/-- True iff the outcome is a failure that query() classifies as
non-transient (auth, permission, rate limit). -/
def UpstreamOutcome.nonTransient : UpstreamOutcome → Bool
  | .failure e => isNonTransient e
  | .success _ => false

/-- The parsing environment of a query call: JSON.parse (none = throws) and
schema.parse for the caller-provided Zod schema (error = ZodError message). -/
structure QueryEnv (J T : Type) where
  jsonParse : String → Option J
  schemaParse : J → Except String T

/-- Message of the error thrown on an empty output_text. -/
def noTextMsg : String := "Grok returned no text output."

/-- JavaScript s.slice(-n): the last n characters of s (all of s when it is
shorter). -/
def sliceLast (s : String) (n : Nat) : String :=
  String.mk (s.data.drop (s.data.length - n))

/-- The excerpt embedded in the malformed-JSON error message:
text.length > 200 ? text.slice(-200) : text. -/
def malformedExcerpt (text : String) : String :=
  if text.length > 200 then sliceLast text 200 else text

/-- Message of the error thrown when JSON.parse fails on the payload. -/
def malformedMsg (text : String) : String :=
  "Grok response JSON is malformed (likely truncated). Last 200 chars: ..."
    ++ malformedExcerpt text

/-- GrokClient.query, from the circuit-breaker gate onward: check the
breaker, run the upstream call, feed the breaker (onFailure only for
transient errors, onSuccess on success), classify thrown errors via
rethrowApiError, then check for empty text, JSON.parse, and schema.parse.
Returns the thrown error or the validated value, plus the breaker state
after the call. -/
def GrokClient.query {J T : Type} (env : QueryEnv J T) (now : Int)
    (cb : CircuitBreaker) (outcome : UpstreamOutcome) :
    Except GrokError T × CircuitBreaker :=
  match cb.check now with
  | .error retryIn => (.error (.circuitOpenError retryIn), cb)
  | .ok cb1 =>
    match outcome with
    | .failure err =>
      let cb2 := if isNonTransient err then cb1 else cb1.onFailure now
      (.error (rethrowApiError err), cb2)
    | .success text =>
      let cb2 := cb1.onSuccess
      if text = "" then (.error (.genericError noTextMsg), cb2)
      else
        match env.jsonParse text with
        | none => (.error (.genericError (malformedMsg text)), cb2)
        | some parsed =>
          match env.schemaParse parsed with
          | .error zmsg => (.error (.genericError zmsg), cb2)
          | .ok v => (.ok v, cb2)

/-- A sequence of query() calls against one shared breaker, returning the
final breaker state. -/
def GrokClient.runQueries {J T : Type} (env : QueryEnv J T) (cb : CircuitBreaker) :
    List (Int × UpstreamOutcome) → CircuitBreaker
  | [] => cb
  | (t, o) :: rest => GrokClient.runQueries env (GrokClient.query env t cb o).2 rest

/-- A concrete parsing environment used to instantiate witnesses. -/
def envId : QueryEnv String String :=
  { jsonParse := fun s => some s, schemaParse := fun s => .ok s }

/-- A concrete parsing environment whose JSON.parse rejects everything,
used to instantiate witnesses. -/
def envBad : QueryEnv String String :=
  { jsonParse := fun _ => none, schemaParse := fun s => .ok s }

/-- A concrete parsing environment that parses only the strings "ok" and
"bad" and validates only "ok", used to instantiate witnesses. -/
def envPartial : QueryEnv String String :=
  { jsonParse := fun s => if s = "ok" ∨ s = "bad" then some s else none,
    schemaParse := fun s => if s = "ok" then .ok s else .error "schema mismatch" }

/-! ## TTL cache (src/lib/cache.ts) -/

/-- JavaScript Map.get on an association list with unique keys. -/
def mapGet {K α : Type} [DecidableEq K] : List (K × α) → K → Option α
  | [], _ => none
  | (k1, a) :: rest, k => if k1 = k then some a else mapGet rest k

/-- JavaScript Map.set: update the existing entry in place, else append. -/
def mapSet {K α : Type} [DecidableEq K] : List (K × α) → K → α → List (K × α)
  | [], k, a => [(k, a)]
  | (k1, a1) :: rest, k, a =>
    if k1 = k then (k, a) :: rest else (k1, a1) :: mapSet rest k a

/-- JavaScript Map.delete: remove the entry with the given key. -/
def mapDelete {K α : Type} [DecidableEq K] : List (K × α) → K → List (K × α)
  | [], _ => []
  | (k1, a1) :: rest, k => if k1 = k then rest else (k1, a1) :: mapDelete rest k

/-- Class TtlCache: its ttlMs constructor parameter and its store, a map
from keys to records of value and expiresAt. -/
structure TtlCache (K V : Type) where
  ttlMs : Int
  store : List (K × V × Int)
deriving DecidableEq, Repr

/-- A freshly constructed in-memory cache: empty store. -/
def TtlCache.new (K V : Type) (ttlMs : Int) : TtlCache K V :=
  { ttlMs := ttlMs, store := [] }

/-- TtlCache.get: absent key gives undefined; an entry whose expiresAt lies
strictly in the past is deleted and treated as absent; otherwise the value
is returned.  The second component is the store after the (possibly
deleting) read. -/
def TtlCache.get {K V : Type} [DecidableEq K] (c : TtlCache K V) (now : Int)
    (k : K) : Option V × TtlCache K V :=
  match mapGet c.store k with
  | none => (none, c)
  | some (v, expiresAt) =>
    if now > expiresAt then (none, { c with store := mapDelete c.store k })
    else (some v, c)

/-- TtlCache.set: store the value with expiresAt = now + ttlMs. -/
def TtlCache.set {K V : Type} [DecidableEq K] (c : TtlCache K V) (now : Int)
    (k : K) (v : V) : TtlCache K V :=
  { c with store := mapSet c.store k (v, now + c.ttlMs) }

/-- TtlCache.clear: remove all entries. -/
def TtlCache.clear {K V : Type} (c : TtlCache K V) : TtlCache K V :=
  { c with store := [] }

/-! ## Persistent TTL cache (PersistentTtlCache in src/lib/grok-client.ts) -/

/-- The backing JSON file.  `content = some entries` models a readable file
that parses to a record of entries; `content = none` models an absent,
unreadable, or corrupt file (readFileSync or JSON.parse throws). -/
structure PFile (V : Type) where
  content : Option (List (String × V × Int))
deriving DecidableEq, Repr

/-- PersistentTtlCache.loadFromFile: a failing read or parse is caught and
yields an empty store; otherwise every entry whose stored expiresAt is
strictly in the future is kept unchanged (original expiry preserved) and
the rest are dropped. -/
def PersistentTtlCache.loadFromFile {V : Type} (now : Int) (f : PFile V) :
    List (String × V × Int) :=
  match f.content with
  | none => []
  | some stored => stored.filter (fun e => decide (now < e.2.2))

/-- The PersistentTtlCache constructor: super(ttlMs) then loadFromFile. -/
def PersistentTtlCache.construct (V : Type) (ttlMs : Int) (now : Int)
    (f : PFile V) : TtlCache String V :=
  { ttlMs := ttlMs, store := PersistentTtlCache.loadFromFile now f }

/-- PersistentTtlCache.saveToFile: serialize the full store to the file;
a failing write (writeOk = false) is caught and leaves the file as it was. -/
def PersistentTtlCache.saveToFile {V : Type} (c : TtlCache String V)
    (writeOk : Bool) (f : PFile V) : PFile V :=
  if writeOk then { content := some c.store } else f

/-- A persistent cache instance together with its backing file. -/
structure PWorld (V : Type) where
  cache : TtlCache String V
  file : PFile V
deriving DecidableEq, Repr

/-- PersistentTtlCache.set: super.set then saveToFile. -/
def PWorld.set {V : Type} (w : PWorld V) (now : Int) (k : String) (v : V)
    (writeOk : Bool) : PWorld V :=
  let c := w.cache.set now k v
  { cache := c, file := PersistentTtlCache.saveToFile c writeOk w.file }

/-- The inherited get (file untouched). -/
def PWorld.get {V : Type} (w : PWorld V) (now : Int) (k : String) :
    Option V × PWorld V :=
  let r := w.cache.get now k
  (r.1, { w with cache := r.2 })

/-- PersistentTtlCache.clear: super.clear then unlinkSync; a failing unlink
(unlinkOk = false) is caught and leaves the file as it was. -/
def PWorld.clear {V : Type} (w : PWorld V) (unlinkOk : Bool) : PWorld V :=
  { cache := w.cache.clear,
    file := if unlinkOk then { content := none } else w.file }

/-- A sequence of set() calls on one persistent instance, every disk write
succeeding. -/
def PWorld.runSets {V : Type} (w : PWorld V) : List (Int × String × V) → PWorld V
  | [] => w
  | (t, k, v) :: rest => (w.set t k v true).runSets rest

/-- One cache operation, with the success of its disk side effect made
explicit (get performs no disk operation). -/
inductive CacheOp (V : Type) where
  | setOp (now : Int) (k : String) (v : V) (writeOk : Bool)
  | getOp (now : Int) (k : String)
  | clearOp (unlinkOk : Bool)

/-- Run a sequence of operations on a persistent instance, collecting the
results of the get operations. -/
def PWorld.runOps {V : Type} (w : PWorld V) :
    List (CacheOp V) → List (Option V) × PWorld V
  | [] => ([], w)
  | .setOp t k v wk :: rest => (w.set t k v wk).runOps rest
  | .getOp t k :: rest =>
    let r := w.get t k
    let out := r.2.runOps rest
    (r.1 :: out.1, out.2)
  | .clearOp uk :: rest => (w.clear uk).runOps rest

/-- Run the same sequence of operations on a plain in-memory TtlCache
(disk flags ignored, as an in-memory cache has no disk). -/
def TtlCache.runOps {V : Type} (c : TtlCache String V) :
    List (CacheOp V) → List (Option V) × TtlCache String V
  | [] => ([], c)
  | .setOp t k v _ :: rest => (c.set t k v).runOps rest
  | .getOp t k :: rest =>
    let r := c.get t k
    let out := r.2.runOps rest
    (r.1 :: out.1, out.2)
  | .clearOp _ :: rest => c.clear.runOps rest

/-- A concrete open breaker with nextAttemptAt 1000 and retry window 1000 ms,
used to instantiate witnesses. -/
def cbOpen1000 : CircuitBreaker :=
  { state := .opened, failureCount := 0, nextAttemptAt := 1000,
    failureThreshold := 5, retryTimeoutMs := 1000 }

/-- A concrete half-open breaker used to instantiate witnesses. -/
def cbHalf : CircuitBreaker :=
  { state := .halfOpen, failureCount := 2, nextAttemptAt := 0,
    failureThreshold := 5, retryTimeoutMs := 1000 }

/-! ## Theorems -/

/-- On a closed breaker, check() is a no-op that never throws. -/
theorem CircuitBreaker.check_closed (cb : CircuitBreaker) (now : Int)
    (h : cb.state = .closed) : cb.check now = .ok cb := by
  simp [CircuitBreaker.check, h]

/-- One onFailure() on a closed breaker strictly below the threshold only
increments the counter. -/
theorem CircuitBreaker.onFailure_closed_small (cb : CircuitBreaker) (t : Int)
    (hs : cb.state = .closed) (hlt : cb.failureCount + 1 < cb.failureThreshold) :
    cb.onFailure t = { cb with failureCount := cb.failureCount + 1 } := by
  unfold CircuitBreaker.onFailure
  rw [if_neg]
  push_neg
  exact ⟨by simp [hs], by omega⟩

/-- Iterating onFailure() on a closed breaker while staying strictly below
the threshold only accumulates the counter. -/
theorem CircuitBreaker.onFailureIter_closed (ts : List Int) :
    ∀ cb : CircuitBreaker, cb.state = .closed →
      cb.failureCount + ts.length < cb.failureThreshold →
      cb.onFailureIter ts = { cb with failureCount := cb.failureCount + ts.length } := by
  induction ts with
  | nil => intro cb _ _; rfl
  | cons t ts ih =>
    intro cb hs hlt
    simp only [List.length_cons] at hlt
    have h1 : cb.onFailure t = { cb with failureCount := cb.failureCount + 1 } :=
      CircuitBreaker.onFailure_closed_small cb t hs (by omega)
    show (cb.onFailure t).onFailureIter ts = _
    rw [h1, ih { cb with failureCount := cb.failureCount + 1 }
      (show ({ cb with failureCount := cb.failureCount + 1 } :
        CircuitBreaker).state = .closed from hs)
      (by show cb.failureCount + 1 + ts.length < cb.failureThreshold; omega)]
    simp only [List.length_cons]
    congr 1
    omega

/-- C3: with failure threshold N ≥ 1, from a fresh breaker, N-1 onFailure()
calls (at arbitrary instants) leave the state closed with check()
non-throwing, and the Nth onFailure() call opens the circuit, sets
nextAttemptAt to the call instant plus the retry timeout, and resets the
failure counter to 0. -/
theorem breaker_threshold (N : Nat) (T : Int) (ts : List Int) (tN : Int)
    (hN : 1 ≤ N) (hlen : ts.length = N - 1) :
    ((CircuitBreaker.new N T).onFailureIter ts).state = .closed ∧
    (∀ tc, ((CircuitBreaker.new N T).onFailureIter ts).check tc =
      .ok ((CircuitBreaker.new N T).onFailureIter ts)) ∧
    ((CircuitBreaker.new N T).onFailureIter ts).onFailure tN =
      { state := .opened, failureCount := 0, nextAttemptAt := tN + T,
        failureThreshold := N, retryTimeoutMs := T } := by
  have hiter := CircuitBreaker.onFailureIter_closed ts (CircuitBreaker.new N T) rfl
    (by show 0 + ts.length < N; omega)
  rw [hiter]
  refine ⟨rfl, fun tc => CircuitBreaker.check_closed _ tc rfl, ?_⟩
  unfold CircuitBreaker.onFailure
  rw [if_pos (Or.inr (by show 0 + ts.length + 1 ≥ N; omega))]
  rfl

/-- Witness for breaker_threshold: threshold 3, retry 1000 ms, two failures
then the third. -/
theorem breaker_threshold_witness :
    ((CircuitBreaker.new 3 1000).onFailureIter [1, 2]).state = .closed ∧
    ((CircuitBreaker.new 3 1000).onFailureIter [1, 2]).check 5 =
      .ok ((CircuitBreaker.new 3 1000).onFailureIter [1, 2]) ∧
    ((CircuitBreaker.new 3 1000).onFailureIter [1, 2]).onFailure 50 =
      { state := .opened, failureCount := 0, nextAttemptAt := 50 + 1000,
        failureThreshold := 3, retryTimeoutMs := 1000 } := by
  have h := breaker_threshold 3 1000 [1, 2] 50 (by decide) (by decide)
  exact ⟨h.1, h.2.1 5, h.2.2⟩

/-- C4: once the breaker is open with nextAttemptAt = t0 + T, check() at any
instant strictly before t0 + T throws a circuit-open error carrying
retryInMs = nextAttemptAt - now, and query() at such an instant returns that
very error with the breaker unchanged, whatever the upstream would have done
(no upstream work); at any instant at or after t0 + T, check() does not
throw and flips the state to half-open. -/
theorem breaker_timing (cb : CircuitBreaker) (t0 T : Int)
    (hs : cb.state = .opened) (hn : cb.nextAttemptAt = t0 + T) :
    (∀ t, t < t0 + T → cb.check t = .error (cb.nextAttemptAt - t)) ∧
    (∀ t, t0 + T ≤ t → cb.check t = .ok { cb with state := .halfOpen }) ∧
    (∀ {J Tt : Type} (env : QueryEnv J Tt) (t : Int) (outcome : UpstreamOutcome),
      t < t0 + T →
      GrokClient.query env t cb outcome =
        (.error (.circuitOpenError (cb.nextAttemptAt - t)), cb)) := by
  have hthrow : ∀ t, t < t0 + T → cb.check t = .error (cb.nextAttemptAt - t) := by
    intro t ht
    unfold CircuitBreaker.check
    rw [if_neg (by simp [hs]), if_pos hs, if_neg (by omega : ¬ t ≥ cb.nextAttemptAt)]
  refine ⟨hthrow, ?_, ?_⟩
  · intro t ht
    unfold CircuitBreaker.check
    rw [if_neg (by simp [hs]), if_pos hs, if_pos (by omega : t ≥ cb.nextAttemptAt)]
  · intro J Tt env t outcome ht
    unfold GrokClient.query
    rw [hthrow t ht]

/-- Witness for breaker_timing on cbOpen1000 (opened at 0, window 1000 ms):
check throws at 999, passes at 1000, and query is rejected at 500 leaving
the breaker untouched. -/
theorem breaker_timing_witness :
    cbOpen1000.check 999 = .error (cbOpen1000.nextAttemptAt - 999) ∧
    cbOpen1000.check 1000 = .ok { cbOpen1000 with state := .halfOpen } ∧
    GrokClient.query envId 500 cbOpen1000 (.success "hi") =
      (.error (.circuitOpenError (cbOpen1000.nextAttemptAt - 500)), cbOpen1000) := by
  have h := breaker_timing cbOpen1000 0 1000 rfl (by decide)
  exact ⟨h.1 999 (by decide), h.2.1 1000 (by decide),
    h.2.2 envId 500 (.success "hi") (by decide)⟩

/-- C5: from half-open, one onSuccess() closes the circuit and resets the
counter; one onFailure() reopens it with nextAttemptAt freshly set to the
call instant plus the retry timeout, so check() before that fresh window
elapses throws a circuit-open error. -/
theorem halfopen_resolution (cb : CircuitBreaker) (t : Int)
    (hs : cb.state = .halfOpen) :
    cb.onSuccess = { cb with state := .closed, failureCount := 0 } ∧
    cb.onFailure t = { cb with state := .opened, nextAttemptAt := t + cb.retryTimeoutMs, failureCount := 0 } ∧
    (∀ t2, t2 < t + cb.retryTimeoutMs →
      (cb.onFailure t).check t2 = .error (t + cb.retryTimeoutMs - t2)) := by
  have hof : cb.onFailure t = { cb with state := .opened, nextAttemptAt := t + cb.retryTimeoutMs, failureCount := 0 } := by
    unfold CircuitBreaker.onFailure
    rw [if_pos (Or.inl hs)]
  refine ⟨rfl, hof, ?_⟩
  intro t2 ht2
  rw [hof]
  unfold CircuitBreaker.check
  rw [if_neg (by simp), if_pos rfl, if_neg (by show ¬ t2 ≥ t + cb.retryTimeoutMs; omega)]

/-- Witness for halfopen_resolution on cbHalf, failing at instant 100 and
checking again at 1099 (before the fresh 1000 ms window ends at 1100). -/
theorem halfopen_resolution_witness :
    cbHalf.onSuccess = { cbHalf with state := .closed, failureCount := 0 } ∧
    cbHalf.onFailure 100 = { cbHalf with state := .opened, nextAttemptAt := 100 + cbHalf.retryTimeoutMs, failureCount := 0 } ∧
    (cbHalf.onFailure 100).check 1099 =
      .error (100 + cbHalf.retryTimeoutMs - 1099) := by
  have h := halfopen_resolution cbHalf 100 rfl
  exact ⟨h.1, h.2.1, h.2.2 1099 (by decide)⟩

/-- C10: onSuccess() is unconditional: from every breaker state (closed,
open, or half-open) and every failure count it yields the closed state with
failure counter 0 — in particular a success reported while the circuit is
open closes it immediately, without passing through half-open and without
waiting for nextAttemptAt. -/
theorem onsuccess_closes_unconditionally (cb : CircuitBreaker) :
    cb.onSuccess = { cb with state := .closed, failureCount := 0 } ∧
    cb.onSuccess.state = .closed ∧ cb.onSuccess.failureCount = 0 :=
  ⟨rfl, rfl, rfl⟩

/-- C1: with the gate passing (closed breaker), every upstream failure that
is not an authentication, permission, or rate-limit error is surfaced by
query() as the generic error kind carrying the original message (the only
breaker effect being the transient-failure report), and an empty payload or
a payload JSON.parse rejects likewise surfaces as a generic error with the
messages built by the source; since query() returns in the closed GrokError
taxonomy by construction, no other kind of error can escape. -/
theorem query_error_taxonomy {J T : Type} (env : QueryEnv J T) (now : Int)
    (cb : CircuitBreaker) (hclosed : cb.state = .closed) :
    (∀ msg, GrokClient.query env now cb (.failure (.otherFailure msg)) =
      (.error (.genericError msg), cb.onFailure now)) ∧
    (GrokClient.query env now cb (.success "") =
      (.error (.genericError noTextMsg), cb.onSuccess)) ∧
    (∀ text, text ≠ "" → env.jsonParse text = none →
      GrokClient.query env now cb (.success text) =
        (.error (.genericError (malformedMsg text)), cb.onSuccess)) := by
  have hck := CircuitBreaker.check_closed cb now hclosed
  refine ⟨?_, ?_, ?_⟩
  · intro msg
    simp [GrokClient.query, hck, isNonTransient, rethrowApiError]
  · simp [GrokClient.query, hck]
  · intro text hne hparse
    simp [GrokClient.query, hck, hne, hparse]

/-- Witness for query_error_taxonomy on a fresh breaker: an unclassified
upstream failure, an empty payload, and a malformed payload (envBad rejects
every string as JSON). -/
theorem query_error_taxonomy_witness :
    GrokClient.query envBad 0 (CircuitBreaker.new 5 30000)
      (.failure (.otherFailure "boom")) =
      (.error (.genericError "boom"), (CircuitBreaker.new 5 30000).onFailure 0) ∧
    GrokClient.query envBad 0 (CircuitBreaker.new 5 30000) (.success "") =
      (.error (.genericError noTextMsg), (CircuitBreaker.new 5 30000).onSuccess) ∧
    GrokClient.query envBad 0 (CircuitBreaker.new 5 30000) (.success "oops") =
      (.error (.genericError (malformedMsg "oops")),
        (CircuitBreaker.new 5 30000).onSuccess) := by
  have h := query_error_taxonomy envBad 0 (CircuitBreaker.new 5 30000) rfl
  exact ⟨h.1 "boom", h.2.1, h.2.2 "oops" (by decide) rfl⟩

/-- C2: a sequence of query() calls of any length whose upstream outcomes
are all non-transient failures (authentication, permission, rate limit)
leaves a closed shared breaker exactly as it was: it never leaves the
closed state and its failure counter is never incremented, because
onFailure() is only reached for transient failures. -/
theorem nontransient_isolation {J T : Type} (env : QueryEnv J T)
    (cb : CircuitBreaker) (calls : List (Int × UpstreamOutcome))
    (hclosed : cb.state = .closed)
    (hnt : ∀ p ∈ calls, p.2.nonTransient = true) :
    GrokClient.runQueries env cb calls = cb := by
  induction calls with
  | nil => rfl
  | cons p rest ih =>
    obtain ⟨t, o⟩ := p
    have ho : o.nonTransient = true := hnt (t, o) (List.mem_cons_self _ _)
    have hstep : GrokClient.query env t cb o = (.error (rethrowApiError (match o with
      | .failure e => e
      | .success _ => .otherFailure "")), cb) := by
      cases o with
      | failure e =>
        have hck := CircuitBreaker.check_closed cb t hclosed
        simp only [UpstreamOutcome.nonTransient] at ho
        simp [GrokClient.query, hck, ho]
      | success text => simp [UpstreamOutcome.nonTransient] at ho
    show GrokClient.runQueries env (GrokClient.query env t cb o).2 rest = cb
    rw [hstep]
    exact ih (fun q hq => hnt q (List.mem_cons_of_mem _ hq))

/-- Witness for nontransient_isolation: six consecutive auth / rate-limit
failures (above the default threshold 5) leave a fresh breaker untouched. -/
theorem nontransient_isolation_witness :
    GrokClient.runQueries envId (CircuitBreaker.new 5 30000)
      [(0, .failure .authentication), (1, .failure (.rateLimit none)),
       (2, .failure .permissionDenied), (3, .failure (.rateLimit (some 2000))),
       (4, .failure .authentication), (5, .failure (.rateLimit none))] =
      CircuitBreaker.new 5 30000 :=
  nontransient_isolation envId (CircuitBreaker.new 5 30000) _ rfl (by decide)

set_option maxRecDepth 8000 in
/-- C6: with the gate passing, a successful upstream response whose payload
JSON.parse rejects surfaces as a generic error whose message appends an
excerpt that is a suffix of the raw text of length at most 200; a payload
that parses but fails schema validation surfaces as that validation error
(never a value); and query() returns a value only when the payload both
parses and validates to exactly that value. -/
theorem query_payload_validation {J T : Type} (env : QueryEnv J T) (now : Int)
    (cb : CircuitBreaker) (hclosed : cb.state = .closed) :
    (∀ text, text ≠ "" → env.jsonParse text = none →
      (GrokClient.query env now cb (.success text)).1 =
        .error (.genericError (malformedMsg text)) ∧
      (malformedExcerpt text).length ≤ 200 ∧
      (malformedExcerpt text).data <:+ text.data) ∧
    (∀ text j zmsg, text ≠ "" → env.jsonParse text = some j →
      env.schemaParse j = .error zmsg →
      (GrokClient.query env now cb (.success text)).1 =
        .error (.genericError zmsg)) ∧
    (∀ text v cb2, GrokClient.query env now cb (.success text) = (.ok v, cb2) →
      ∃ j, env.jsonParse text = some j ∧ env.schemaParse j = .ok v) := by
  have hck := CircuitBreaker.check_closed cb now hclosed
  refine ⟨?_, ?_, ?_⟩
  · intro text hne hparse
    refine ⟨by simp [GrokClient.query, hck, hne, hparse], ?_, ?_⟩
    · unfold malformedExcerpt
      split
      · show (sliceLast text 200).length ≤ 200
        unfold sliceLast
        show (text.data.drop (text.data.length - 200)).length ≤ 200
        rw [List.length_drop]
        omega
      · rename_i hle
        show text.length ≤ 200
        omega
    · unfold malformedExcerpt
      split
      · show (sliceLast text 200).data <:+ text.data
        unfold sliceLast
        exact List.drop_suffix _ _
      · exact List.suffix_refl _
  · intro text j zmsg hne hparse hschema
    unfold GrokClient.query
    rw [hck]
    simp only [hne, ite_false, if_neg, hparse, hschema]
  · intro text v cb2 hq
    by_cases hne : text = ""
    · subst hne
      have hform : GrokClient.query env now cb (.success "") =
          (.error (.genericError noTextMsg), cb.onSuccess) := by
        unfold GrokClient.query
        rw [hck]
        simp
      rw [hform] at hq
      exact absurd hq (by simp)
    · rcases hj : env.jsonParse text with _ | j
      · have hform : GrokClient.query env now cb (.success text) =
            (.error (.genericError (malformedMsg text)), cb.onSuccess) := by
          unfold GrokClient.query
          rw [hck]
          simp only [hne, ite_false, if_neg, hj]
        rw [hform] at hq
        exact absurd hq (by simp)
      · rcases hs : env.schemaParse j with zmsg | v2
        · have hform : GrokClient.query env now cb (.success text) =
              (.error (.genericError zmsg), cb.onSuccess) := by
            unfold GrokClient.query
            rw [hck]
            simp only [hne, ite_false, if_neg, hj, hs]
          rw [hform] at hq
          exact absurd hq (by simp)
        · have hform : GrokClient.query env now cb (.success text) =
              (.ok v2, cb.onSuccess) := by
            unfold GrokClient.query
            rw [hck]
            simp only [hne, ite_false, if_neg, hj, hs]
          rw [hform] at hq
          have hv : v2 = v := by
            have h1 := congrArg Prod.fst hq
            simpa using h1
          exact ⟨j, rfl, by rw [hs, hv]⟩

/-- Witness for query_payload_validation using envPartial, which parses
only "ok" and "bad" and validates only "ok". -/
theorem query_payload_validation_witness :
    (GrokClient.query envPartial 0 (CircuitBreaker.new 5 30000)
      (.success "oops")).1 = .error (.genericError (malformedMsg "oops")) ∧
    (GrokClient.query envPartial 0 (CircuitBreaker.new 5 30000)
      (.success "bad")).1 = .error (.genericError "schema mismatch") ∧
    (malformedExcerpt "oops").length ≤ 200 := by
  have h := query_payload_validation envPartial 0 (CircuitBreaker.new 5 30000) rfl
  refine ⟨(h.1 "oops" (by decide) (by decide)).1,
    h.2.1 "bad" "bad" "schema mismatch" (by decide) (by decide) rfl,
    (h.1 "oops" (by decide) (by decide)).2.1⟩

/-- Map.set followed by Map.get on the same key yields the stored record. -/
theorem mapGet_mapSet_self {K α : Type} [DecidableEq K] (l : List (K × α))
    (k : K) (a : α) : mapGet (mapSet l k a) k = some a := by
  induction l with
  | nil => simp [mapSet, mapGet]
  | cons p rest ih =>
    obtain ⟨k1, a1⟩ := p
    by_cases h : k1 = k
    · subst h
      simp [mapSet, mapGet]
    · simp [mapSet, mapGet, h, ih]

/-- C7: with a nonnegative ttl, get(k) immediately after set(k, v) returns
v; get(k) strictly more than ttl after the set returns absent; and after
re-setting the same key, any get at most ttl after the overwrite (0.8·ttl
among them) returns the newly set value, whatever instant the first set
happened at. -/
theorem cache_ttl {K V : Type} [DecidableEq K] (c : TtlCache K V) (k : K)
    (v : V) (t : Int) (httl : 0 ≤ c.ttlMs) :
    ((c.set t k v).get t k).1 = some v ∧
    (∀ tr, t + c.ttlMs < tr → ((c.set t k v).get tr k).1 = none) ∧
    (∀ v2 t1 t2, t2 ≤ t1 + c.ttlMs →
      (((c.set t k v).set t1 k v2).get t2 k).1 = some v2) := by
  refine ⟨?_, ?_, ?_⟩
  · simp only [TtlCache.set, TtlCache.get, mapGet_mapSet_self]
    split
    · rename_i h
      exact absurd h (by omega)
    · rfl
  · intro tr htr
    simp only [TtlCache.set, TtlCache.get, mapGet_mapSet_self]
    split
    · rfl
    · rename_i h
      exact absurd htr (by omega)
  · intro v2 t1 t2 ht2
    simp only [TtlCache.set, TtlCache.get, mapGet_mapSet_self]
    split
    · rename_i h
      exact absurd h (by omega)
    · rfl

/-- Witness for cache_ttl with ttl 10: read at the set instant, read after
expiry, and the re-set scenario of the spec — set at 0, re-set at 8
(0.8·ttl), read at 16 (0.8·ttl after the second set, more than ttl after
the first): the second value is still there. -/
theorem cache_ttl_witness :
    (0 : Int) ≤ 10 ∧
    (((TtlCache.new Nat Nat 10).set 0 1 5).get 0 1).1 = some 5 ∧
    (((TtlCache.new Nat Nat 10).set 0 1 5).get 11 1).1 = none ∧
    ((((TtlCache.new Nat Nat 10).set 0 1 5).set 8 1 7).get 16 1).1 = some 7 := by
  have h := cache_ttl (TtlCache.new Nat Nat 10) 1 5 0 (by decide)
  exact ⟨by decide, h.1, h.2.1 11 (by decide), h.2.2 7 8 16 (by decide)⟩

/-- After a nonempty sequence of set() calls whose disk writes succeed, the
backing file holds exactly the serialized in-memory store. -/
theorem runSets_file_mirrors {V : Type} :
    ∀ (ops : List (Int × String × V)) (w : PWorld V), ops ≠ [] →
      (w.runSets ops).file.content = some (w.runSets ops).cache.store := by
  intro ops
  induction ops with
  | nil => intro w h; exact absurd rfl h
  | cons p rest ih =>
    intro w _
    obtain ⟨t, k, v⟩ := p
    by_cases hr : rest = []
    · subst hr
      rfl
    · exact ih (w.set t k v true) hr

/-- C8: after any nonempty sequence of writes through one persistent
instance (disk writes succeeding), a freshly constructed instance on the
same backing file holds exactly the written entries whose stored expiry is
still strictly in the future at load time, each with its original
expiresAt unchanged; every already-expired entry is dropped. -/
theorem persistent_roundtrip {V : Type} (w : PWorld V)
    (ops : List (Int × String × V)) (hne : ops ≠ []) (ttl2 tload : Int) :
    (PersistentTtlCache.construct V ttl2 tload (w.runSets ops).file).store =
      (w.runSets ops).cache.store.filter (fun e => decide (tload < e.2.2)) := by
  show PersistentTtlCache.loadFromFile tload (w.runSets ops).file = _
  rw [PersistentTtlCache.loadFromFile, runSets_file_mirrors ops w hne]

/-- Witness for persistent_roundtrip: writes at 0 and 100 with ttl 10;
reloading at 50 drops the first entry (expiry 10) and keeps the second with
its original expiry 110. -/
theorem persistent_roundtrip_witness :
    (PersistentTtlCache.construct Nat 7 50
      ((PWorld.mk (TtlCache.new String Nat 10) (PFile.mk none)).runSets
        [(0, "a", 1), (100, "b", 2)]).file).store = [("b", 2, 110)] := by
  rw [persistent_roundtrip (PWorld.mk (TtlCache.new String Nat 10) (PFile.mk none))
    [(0, "a", 1), (100, "b", 2)] (by simp) 7 50]
  rfl

/-- The results and the cache component of a persistent instance never
depend on the file state or on the success of any disk operation. -/
theorem runOps_sim {V : Type} :
    ∀ (ops : List (CacheOp V)) (w : PWorld V),
      (w.runOps ops).1 = (w.cache.runOps ops).1 ∧
      (w.runOps ops).2.cache = (w.cache.runOps ops).2 := by
  intro ops
  induction ops with
  | nil => intro w; exact ⟨rfl, rfl⟩
  | cons op rest ih =>
    intro w
    cases op with
    | setOp t k v wk => exact ih (w.set t k v wk)
    | getOp t k =>
      have h := ih { w with cache := (w.cache.get t k).2 }
      exact ⟨congrArg (fun l => (w.cache.get t k).1 :: l) h.1, h.2⟩
    | clearOp uk => exact ih (w.clear uk)

/-- C9: construction against an absent, unreadable, or corrupt backing file
never fails and yields an empty store (the fresh in-memory cache), and any
sequence of set/get/clear operations on a persistent instance — with every
disk operation allowed to fail — produces exactly the get results and the
final store of the plain in-memory TtlCache run on the same operations:
disk failures are swallowed and only durability is lost. -/
theorem persistent_degradation {V : Type} (ttl t0 : Int) (f : PFile V)
    (ops : List (CacheOp V)) (w : PWorld V) (hf : f.content = none) :
    PersistentTtlCache.construct V ttl t0 f = TtlCache.new String V ttl ∧
    (w.runOps ops).1 = (w.cache.runOps ops).1 ∧
    (w.runOps ops).2.cache = (w.cache.runOps ops).2 := by
  refine ⟨?_, (runOps_sim ops w).1, (runOps_sim ops w).2⟩
  show ({ ttlMs := ttl, store := PersistentTtlCache.loadFromFile t0 f } : TtlCache String V) = _
  rw [PersistentTtlCache.loadFromFile, hf]
  rfl

/-- Witness for persistent_degradation: a corrupt file, then a set whose
write fails, a hit before expiry, and a miss after expiry — identical to the
in-memory cache. -/
theorem persistent_degradation_witness :
    PersistentTtlCache.construct Nat 10 0 (PFile.mk none) =
      TtlCache.new String Nat 10 ∧
    ((PWorld.mk (TtlCache.new String Nat 10) (PFile.mk none)).runOps
      [.setOp 0 "a" 1 false, .getOp 5 "a", .getOp 20 "a"]).1 =
      ((TtlCache.new String Nat 10).runOps
        [.setOp 0 "a" 1 false, .getOp 5 "a", .getOp 20 "a"]).1 ∧
    ((PWorld.mk (TtlCache.new String Nat 10) (PFile.mk none)).runOps
      [.setOp 0 "a" 1 false, .getOp 5 "a", .getOp 20 "a"]).2.cache =
      ((TtlCache.new String Nat 10).runOps
        [.setOp 0 "a" 1 false, .getOp 5 "a", .getOp 20 "a"]).2 :=
  persistent_degradation 10 0 (PFile.mk none)
    [.setOp 0 "a" 1 false, .getOp 5 "a", .getOp 20 "a"]
    (PWorld.mk (TtlCache.new String Nat 10) (PFile.mk none)) rfl
